import Mathlib

/-!
Verification of the Deep-Clean pipeline of the Fox-Pro-AI repository.

This file shallowly embeds the parts of the Python source that the frozen
claims C1..C10 are about, and proves or refutes each claim against the
embedding.  Python strings are modelled as Lean strings, with the Python
string primitives (strip, split, join, replace, substring test) implemented
over the character list; filesystem paths are modelled as lists of path
segments; fallible Python operations return an Except value; Python calls
with keyword arguments are modelled by an explicit argument-binding
function, so that a call that the interpreter rejects with a TypeError is
an error value in the model.

Layout: all definitions first, then all theorems.
-/

/-! ## Python string primitives -/

/-- Characters Python treats as whitespace in str.strip() (ASCII range). -/
def pyWsChars : List Char := [' ', '\t', '\n', '\r', Char.ofNat 11, Char.ofNat 12]

/-- The two Python quote characters. -/
def pyQuoteChars : List Char := ['"', Char.ofNat 39]

/-- Python s.strip(chars): remove leading and trailing characters drawn from
the set chars (not the literal sequence). -/
def pyStripChars (chars : List Char) (s : String) : String :=
  String.mk (((s.data.dropWhile (chars.contains ·)).reverse.dropWhile
      (chars.contains ·)).reverse)

/-- Python s.strip() with no argument: strip whitespace from both ends. -/
def pyStripWs (s : String) : String := pyStripChars pyWsChars s

/-- Python s.rstrip(): strip trailing whitespace only. -/
def pyRStrip (s : String) : String :=
  String.mk ((s.data.reverse.dropWhile (pyWsChars.contains ·)).reverse)

/-- Python substring test: sub in s. -/
def containsSub (s sub : String) : Bool :=
  s.data.tails.any (fun t => sub.data.isPrefixOf t)

/-- Python s.startswith(t). -/
def pyStartsWith (s t : String) : Bool := t.data.isPrefixOf s.data

/-- Python s.endswith(t). -/
def pyEndsWith (s t : String) : Bool := t.data.isSuffixOf s.data

/-- Python s.replace(a, b) for one-character a and b (the only form the
embedded code uses, for backslash folding). -/
def pyReplaceChar (a b : Char) (s : String) : String :=
  String.mk (s.data.map (fun c => if c = a then b else c))

/-- Python s.split(sep) for a one-character separator: splits at every
occurrence, keeping empty pieces. -/
def pySplitChar (sep : Char) (s : String) : List String :=
  (s.data.foldr
    (fun c acc =>
      match acc with
      | [] => [[c]]
      | piece :: rest => if c = sep then [] :: piece :: rest else (c :: piece) :: rest)
    [[]]).map String.mk

/-- Python s.split('\n'). -/
def pySplitLines (s : String) : List String := pySplitChar '\n' s

/-- Python '\n'.join(lines). -/
def joinNl : List String → String
  | [] => ""
  | [l] => l
  | l :: rest => l ++ "\n" ++ joinNl rest

/-- Python s.lower() (ASCII case folding suffices for the embedded inputs). -/
def pyLower (s : String) : String := String.mk (s.data.map Char.toLower)

/-- Python list.insert(i, x): inserts before position i, appending when i is
past the end. -/
def pyInsert (i : Nat) (x : α) (l : List α) : List α :=
  l.take i ++ [x] ++ l.drop i

/-- Auxiliary scan for pyCountSub: non-overlapping occurrence count. -/
def pyCountSubAux (l : List Char) (sub : List Char) (hsub : 0 < sub.length) : Nat :=
  match l with
  | [] => 0
  | c :: rest =>
    if h : sub.isPrefixOf (c :: rest) then
      1 + pyCountSubAux ((c :: rest).drop sub.length) sub hsub
    else
      pyCountSubAux rest sub hsub
termination_by l.length
decreasing_by
  · simp only [List.length_drop, List.length_cons]
    omega
  · simp only [List.length_cons]
    omega

/-- Python s.count(sub): number of non-overlapping occurrences. -/
def pyCountSub (s sub : String) : Nat :=
  match h : sub.data with
  | [] => s.data.length + 1
  | c :: cs =>
    pyCountSubAux s.data (c :: cs) (by simp)

/-! ## Python exceptions and keyword-argument binding

A Python call f(a1, .., an, k1=v1, .., km=vm) raises TypeError before the
body runs when a keyword does not name a parameter, rebinds a positionally
bound parameter, or a parameter without a default stays unbound.  Parameters
are listed in order as (name, has-default). -/

inductive PyErr where
  | typeError
  | fileNotFoundError
  | valueError
deriving DecidableEq, Repr

/-- Bind a Python call's arguments against a signature: numPositional
positional arguments followed by the listed keyword names. -/
def pythonBind (params : List (String × Bool)) (numPositional : Nat)
    (kwargs : List String) : Except PyErr Unit :=
  if params.length < numPositional then .error .typeError
  else if kwargs.any (fun k => !(params.map Prod.fst).contains k) then .error .typeError
  else if kwargs.any (fun k => ((params.take numPositional).map Prod.fst).contains k) then
    .error .typeError
  else if (params.enum.any (fun p =>
      numPositional ≤ p.1 && !p.2.2 && !kwargs.contains p.2.1)) then
    .error .typeError
  else .ok ()

/-! ## Paths and external-storage layout

Filesystem paths are lists of segments; a project directory is given by the
segments of its parent directory plus its name (the last segment). -/

/-- A filesystem path as a list of segments. -/
abbrev PyPath := List String

/-- src/core/paths.py get_external_root: the sibling directory
parent/NAME_fox. -/
def CorePaths.get_external_root (parent : PyPath) (name : String) : PyPath :=
  parent ++ [name ++ "_fox"]

/-- src/core/paths.py get_manifest_path: manifest.json at the top of the
core-paths external root. -/
def CorePaths.get_manifest_path (parent : PyPath) (name : String) : PyPath :=
  CorePaths.get_external_root parent name ++ ["manifest.json"]

/-- src/optimizer/heavy_mover.py get_external_dir: parent/NAME_data, except
that a populated legacy directory parent/_data/NAME/LARGE_TOKENS takes
precedence.  The filesystem check "old path exists and has files" is the
boolean argument legacyPopulated. -/
def HeavyMover.get_external_dir (parent : PyPath) (name : String)
    (legacyPopulated : Bool) : PyPath :=
  if legacyPopulated then parent ++ ["_data", name, "LARGE_TOKENS"]
  else parent ++ [name ++ "_data"]

/-- src/optimizer/heavy_mover.py move_heavy_files, destination computation:
dest_path = external_dir / hf.relative_path (the project-relative path is
appended directly under the external directory). -/
def HeavyMover.move_destination (externalDir : PyPath) (relSegments : PyPath) : PyPath :=
  externalDir ++ relSegments

/-- src/optimizer/heavy_mover.py generate_manifest: manifest.json is written
at the top level of the external directory. -/
def HeavyMover.manifest_location (externalDir : PyPath) : PyPath :=
  externalDir ++ ["manifest.json"]

/-- Python Path.relative_to(base) on segment lists: drops the base prefix,
failing (ValueError) when base is not a prefix. -/
def pyRelativeTo (base p : PyPath) : Option PyPath :=
  if base.isPrefixOf p then some (p.drop base.length) else none

/-! ## core/paths.py load_manifest (claim C10)

The filesystem is a partial map from paths to file text; json.loads is an
external library function and is passed in as a parameter. -/

/-- The manifest value as core/paths.py reads and writes it; entries beyond
the fields load_manifest touches are not inspected there, so an entry is
recorded as its (original, external) strings. -/
structure CoreManifest where
  version : String
  files : List (String × String)
deriving DecidableEq, Repr

/-- The default manifest value load_manifest builds when the file is absent. -/
def CorePaths.default_manifest : CoreManifest :=
  { version := "4.0.0", files := [] }

/-- src/core/paths.py load_manifest: if manifest_path.exists() parse it,
else return the fresh default; jsonLoads models the external json.loads. -/
def CorePaths.load_manifest (jsonLoads : String → Except PyErr CoreManifest)
    (fs : PyPath → Option String) (parent : PyPath) (name : String) :
    Except PyErr CoreManifest :=
  match fs (CorePaths.get_manifest_path parent name) with
  | some text => jsonLoads text
  | none => .ok CorePaths.default_manifest

/-! ## Call-signature records for the two broken call sites (claims C1, C2) -/

/-- Parameter list of src/scanner/token_scanner.py get_moveable_files: a
single parameter named result, no default. -/
def get_moveable_files_params : List (String × Bool) := [("result", false)]

/-- The call src/commands/doctor.py full_optimization makes at its step 2:
get_moveable_files(scan_result, exclude_paths=already_moved_paths) — one
positional argument plus the keyword exclude_paths. -/
def full_optimization_get_moveable_call : Except PyErr Unit :=
  pythonBind get_moveable_files_params 1 ["exclude_paths"]

/-- Parameter list of src/optimizer/heavy_mover.py restore_files:
(project_path, manifest_path=None). -/
def restore_files_params : List (String × Bool) :=
  [("project_path", false), ("manifest_path", true)]

/-- The call src/commands/doctor.py restore_files makes:
do_restore(project_path, dry_run=dry_run) — one positional argument plus
the keyword dry_run. -/
def doctor_restore_call : Except PyErr Unit :=
  pythonBind restore_files_params 1 ["dry_run"]

/-! ## Token scanner (src/scanner/token_scanner.py, claim C8)

The os.walk traversal is abstracted: scan_project receives the list of
files the walk yields (project-relative forward-slashed paths with sizes);
per-file stat faults are outside the model. -/

/-- A file as the scanner sees it: its project-relative path (forward
slashes) and its size in bytes. -/
structure SrcFile where
  relative_path : String
  size_bytes : Nat
deriving DecidableEq, Repr

/-- The file name: last path segment (Python Path.name). -/
def pathFileName (rel : String) : String :=
  (pySplitChar '/' rel).getLastD ""

/-- Python Path.suffix of a file name: from the last dot, empty when the
name has no dot, starts with its only dot, or ends with the dot. -/
def pathSuffix (name : String) : String :=
  let l := name.data
  match l.reverse.findIdx? (· = '.') with
  | none => ""
  | some j =>
    let i := l.length - 1 - j
    if 0 < i ∧ i < l.length - 1 then String.mk (l.drop i) else ""

namespace TokenScanner

/-- File categories (token_scanner.py FileCategory). -/
inductive FileCategory where
  | data
  | database
  | code
  | log
  | binary
  | config
  | unknown
deriving DecidableEq, Repr

/-- BINARY_EXTENSIONS from token_scanner.py. -/
def BINARY_EXTENSIONS : List String :=
  [".png", ".jpg", ".jpeg", ".gif", ".ico", ".webp", ".svg",
   ".mp3", ".mp4", ".wav", ".avi", ".mov",
   ".zip", ".tar", ".gz", ".rar", ".7z", ".bz2",
   ".exe", ".dll", ".so", ".dylib",
   ".woff", ".woff2", ".ttf", ".eot",
   ".pyc", ".pyo", ".pyd"]

/-- SCHEMA_EXTENSIONS from token_scanner.py. -/
def SCHEMA_EXTENSIONS : List String :=
  [".json", ".csv", ".sqlite", ".sqlite3", ".db", ".yaml", ".yml"]

/-- categorize_file: category from the lowercased extension, with a
name-based fallback routing names containing "log" to the log category. -/
def categorize_file (f : SrcFile) : FileCategory :=
  let ext := pyLower (pathSuffix (pathFileName f.relative_path))
  let name := pyLower (pathFileName f.relative_path)
  if [".json", ".csv", ".yaml", ".yml", ".xml", ".jsonl"].contains ext then .data
  else if [".sqlite", ".sqlite3", ".db"].contains ext then .database
  else if [".py", ".js", ".ts", ".jsx", ".tsx", ".java", ".go", ".rs", ".cpp", ".c", ".h"].contains ext then .code
  else if ext = ".log" || pyEndsWith name ".log" then .log
  else if BINARY_EXTENSIONS.contains ext then .binary
  else if [".ini", ".toml", ".cfg", ".conf", ".env"].contains ext then .config
  else if containsSub name "log" then .log
  else .unknown

/-- estimate_tokens: 0 for binary extensions, size // 4 otherwise. -/
def estimate_tokens (f : SrcFile) : Nat :=
  if BINARY_EXTENSIONS.contains (pyLower (pathSuffix (pathFileName f.relative_path))) then 0
  else f.size_bytes / 4

/-- HeavyFile record (absolute path and schema payload omitted: no claim
inspects them; can_extract_schema mirrors the SCHEMA_EXTENSIONS test). -/
structure HeavyFile where
  relative_path : String
  size_bytes : Nat
  estimated_tokens : Nat
  category : FileCategory
  extension : String
  can_extract_schema : Bool
deriving DecidableEq, Repr

/-- scan_file: returns a HeavyFile when the file meets the threshold, is not
code (unless include_code) and is not binary; None otherwise.  The
file-outside-project-root branch cannot arise here because the input is
already project-relative. -/
def scan_file (f : SrcFile) (threshold : Nat) (include_code : Bool) :
    Option HeavyFile :=
  let tokens := estimate_tokens f
  if tokens < threshold then none
  else
    let category := categorize_file f
    if category = .code && !include_code then none
    else if category = .binary then none
    else
      some { relative_path := f.relative_path
             size_bytes := f.size_bytes
             estimated_tokens := tokens
             category := category
             extension := pyLower (pathSuffix (pathFileName f.relative_path))
             can_extract_schema :=
               SCHEMA_EXTENSIONS.contains (pyLower (pathSuffix (pathFileName f.relative_path))) }

/-- Scan result (skipped_dirs and errors omitted: no claim inspects them). -/
structure ScanResult where
  total_files_scanned : Nat
  total_tokens : Nat
  heavy_files : List HeavyFile
deriving DecidableEq, Repr

/-- Descending comparison used to model list.sort(key=tokens, reverse=True);
insertion sort with this non-strict relation is stable descending, as
Python's sort is. -/
def tokensDesc (a b : HeavyFile) : Prop :=
  b.estimated_tokens ≤ a.estimated_tokens

instance : DecidableRel tokensDesc := fun _ _ => Nat.decLe _ _

instance : IsTotal HeavyFile tokensDesc :=
  ⟨fun a b => le_total b.estimated_tokens a.estimated_tokens⟩

instance : IsTrans HeavyFile tokensDesc := ⟨fun _ _ _ hab hbc => le_trans hbc hab⟩

/-- scan_project over the walked file list: binary-extension files are
skipped before counting; each remaining file is counted, its tokens
accumulated, and scan_file decides heaviness; finally the heavy list is
sorted by estimated tokens descending (stable sort, as list.sort). -/
def scan_project (files : List SrcFile) (threshold : Nat) (include_code : Bool) :
    ScanResult :=
  let walked := files.filter (fun f =>
    !(BINARY_EXTENSIONS.contains (pyLower (pathSuffix (pathFileName f.relative_path)))))
  { total_files_scanned := walked.length
    total_tokens := (walked.map estimate_tokens).sum
    heavy_files :=
      List.insertionSort tokensDesc
        (walked.filterMap (fun f => scan_file f threshold include_code)) }

/-- Protected names in get_moveable_files (compared against the lowercased
file name, exactly as listed in the source). -/
def protected_names : List String :=
  ["main.py", "__init__.py", "__main__.py",
   "config.py", "settings.py", "constants.py",
   "requirements.txt", "pyproject.toml", "setup.py",
   ".env", ".env.example",
   "README.md", "CLAUDE.md", ".cursorrules",
   "config_paths.py"]

/-- get_moveable_files: filters the heavy list, dropping protected names,
paths under the external-dir markers, and code files without an extractable
schema.  Note the single parameter: the function accepts no exclude_paths
argument. -/
def get_moveable_files (result : ScanResult) : List HeavyFile :=
  result.heavy_files.filter (fun hf =>
    !(protected_names.contains (pyLower (pathFileName hf.relative_path))) &&
    !(["_venvs", "_data", "_artifacts", "_logs"].any
        (fun ext => containsSub hf.relative_path ext)) &&
    !(hf.category = FileCategory.code && !hf.can_extract_schema))

end TokenScanner

/-! ## CSV type inference (src/mapper/schema_extractor.py, claim C7)

Python's int() and float() string parsers are external builtins; they are
embedded below for the string forms they accept: optional surrounding
whitespace, an optional sign, digit runs with single underscores between
digits, and for float an optional fraction, exponent, or inf/infinity/nan. -/

/-- Consume a digit run where single underscores may separate digits;
returns the remainder after the longest valid run. -/
def pyDigitsTail : List Char → List Char
  | '_' :: c :: r => if c.isDigit then pyDigitsTail r else '_' :: c :: r
  | c :: r => if c.isDigit then pyDigitsTail r else c :: r
  | [] => []

/-- Require a leading digit and consume its run; none when no leading digit. -/
def pyDigitsRun : List Char → Option (List Char)
  | c :: rest => if c.isDigit then some (pyDigitsTail rest) else none
  | [] => none

/-- Drop one optional leading sign. -/
def pyDropSign : List Char → List Char
  | c :: r => if c = '+' || c = '-' then r else c :: r
  | [] => []

/-- Python int(s) acceptance on strings. -/
def pyIntParsable (s : String) : Bool :=
  match pyDigitsRun (pyDropSign (pyStripWs s).data) with
  | some [] => true
  | _ => false

/-- Exponent tail after the letter e: optional sign then a digit run. -/
def pyFloatExpTail (l : List Char) : Bool :=
  match pyDigitsRun (pyDropSign l) with
  | some [] => true
  | _ => false

/-- After the mantissa: end of string or an exponent. -/
def pyFloatAfterMantissa : List Char → Bool
  | [] => true
  | 'e' :: r => pyFloatExpTail r
  | _ => false

/-- Python float(s) acceptance on strings (input lowercased, sign dropped). -/
def pyFloatBody (l : List Char) : Bool :=
  if l = ['i', 'n', 'f'] || l = ['i', 'n', 'f', 'i', 'n', 'i', 't', 'y'] ||
      l = ['n', 'a', 'n'] then true
  else
    match pyDigitsRun l with
    | some rest =>
      match rest with
      | '.' :: r2 =>
        (match pyDigitsRun r2 with
         | some r3 => pyFloatAfterMantissa r3
         | none => pyFloatAfterMantissa r2)
      | _ => pyFloatAfterMantissa rest
    | none =>
      match l with
      | '.' :: r2 =>
        (match pyDigitsRun r2 with
         | some r3 => pyFloatAfterMantissa r3
         | none => false)
      | _ => false

/-- Python float(s) acceptance. -/
def pyFloatParsable (s : String) : Bool :=
  pyFloatBody (pyDropSign (pyLower (pyStripWs s)).data)

namespace SchemaExtractor

/-- _infer_csv_type from schema_extractor.py: walk the sampled values,
skipping empty cells; the first value that int() accepts yields "int", else
if float() accepts it "float"; a value accepted by neither is passed over
and the walk continues; "str" only when the walk exhausts the list. -/
def infer_csv_type : List String → String
  | [] => "str"
  | v :: rest =>
    if v = "" then infer_csv_type rest
    else if pyIntParsable v then "int"
    else if pyFloatParsable v then "float"
    else infer_csv_type rest

end SchemaExtractor

/-! ## Patcher matching rule (src/optimizer/ast_patcher.py, claim C5) -/

namespace AstPatcher

/-- PathPatcher._normalize_path: fold backslashes to forward slashes, then
Python strip("./") — which removes every leading and trailing character
drawn from the set containing the dot and the slash. -/
def normalize_path (p : String) : String :=
  pyStripChars ['.', '/'] (pyReplaceChar '\\' '/' p)

/-- PathPatcher._is_moved_file: the normalized literal equals a normalized
moved path, or ends with the raw (un-normalized) moved path. -/
def is_moved_file (moved : List String) (path : String) : Bool :=
  let normalized := normalize_path path
  moved.any (fun m => normalized == normalize_path m || pyEndsWith normalized m)

/-- The normalization function as the specification words it: fold
backslashes to forward slashes and strip one leading "./", changing nothing
else. -/
def specNormalize (p : String) : String :=
  let q := pyReplaceChar '\\' '/' p
  if pyStartsWith q "./" then String.mk (q.data.drop 2) else q

/-- The matching rule as the specification words it: normalize(L) equals
normalize(M) or normalize(L) ends with normalize(M). -/
def specMatchRule (L M : String) : Bool :=
  specNormalize L == specNormalize M || pyEndsWith (specNormalize L) (specNormalize M)

end AstPatcher

/-! ## The two emitted get_path functions (claim C4)

heavy_mover.generate_config_paths and doctor.regenerate_config_paths each
emit a config_paths.py whose get_path normalizes backslashes and looks the
key up in FILES_MAP; they differ on a miss: the heavy_mover module raises
FileNotFoundError, the doctor module returns Path(original) unchanged.
Both emitted docstrings document the raise. -/

/-- get_path of the module emitted by heavy_mover.generate_config_paths:
strict; a missing key raises FileNotFoundError. -/
def HeavyMover.emitted_get_path (files_map : List (String × String))
    (original : String) : Except PyErr String :=
  let normalized := pyReplaceChar '\\' '/' original
  match files_map.lookup normalized with
  | some p => .ok p
  | none => .error .fileNotFoundError

/-- get_path of the module emitted by doctor.regenerate_config_paths:
fallback; a missing key returns the original path unchanged. -/
def Doctor.emitted_get_path (files_map : List (String × String))
    (original : String) : Except PyErr String :=
  let normalized := pyReplaceChar '\\' '/' original
  match files_map.lookup normalized with
  | some p => .ok p
  | none => .ok original

/-- The Raises line of the get_path docstring emitted by
heavy_mover.generate_config_paths. -/
def HeavyMover.emitted_get_path_doc_raises : String :=
  "FileNotFoundError: If no mapping exists"

/-- The Raises line of the get_path docstring emitted by
doctor.regenerate_config_paths. -/
def Doctor.emitted_get_path_doc_raises : String :=
  "FileNotFoundError: If no mapping exists"

/-! ## Indexer-ignore file handling (heavy_mover.py, claims C9 and C2)

update_cursorignore and the restore branch of restore_files both walk the
file line by line with a skip flag; the embeddings below mirror those loops
exactly.  The filesystem queries the section builder makes (does the moved
directory still exist, and how many files remain under it) are supplied as
the residue argument. -/

/-- The sentinel comment that introduces the tool-owned section. -/
def deepCleanSentinel : String := "# Deep Clean - moved files"

/-- The section-removal loop of update_cursorignore: a sentinel line turns
the skip flag on; while skipping, non-empty non-comment lines are dropped;
an empty line or a comment without "Deep Clean" ends the skip, being kept
only when non-empty and not itself a "# Deep Clean" comment; outside the
skip, lines pass through. -/
def stripSectionUpdate : Bool → List String → List String
  | _, [] => []
  | skip, line :: rest =>
    if containsSub line deepCleanSentinel then stripSectionUpdate true rest
    else if skip && (pyStripWs line != "") && !(pyStartsWith (pyStripWs line) "#") then
      stripSectionUpdate skip rest
    else if skip && ((pyStripWs line == "") ||
        (pyStartsWith (pyStripWs line) "#" && !(containsSub line "Deep Clean"))) then
      (if (pyStripWs line != "") && !(pyStartsWith (pyStripWs line) "# Deep Clean") then
        [line] else []) ++ stripSectionUpdate false rest
    else if !skip then line :: stripSectionUpdate skip rest
    else stripSectionUpdate skip rest

/-- The section-removal loop of restore_files: as stripSectionUpdate but the
skip also continues over comments containing "External storage", and such
comments are never re-appended. -/
def stripSectionRestore : Bool → List String → List String
  | _, [] => []
  | skip, line :: rest =>
    if containsSub line deepCleanSentinel then stripSectionRestore true rest
    else if skip && (pyStripWs line != "") && !(pyStartsWith (pyStripWs line) "#") then
      stripSectionRestore skip rest
    else if skip && ((pyStripWs line == "") ||
        (pyStartsWith (pyStripWs line) "#" && !(containsSub line "Deep Clean") &&
         !(containsSub line "External storage"))) then
      (if (pyStripWs line != "") && !(pyStartsWith (pyStripWs line) "# Deep Clean") &&
          !(containsSub line "External storage") then
        [line] else []) ++ stripSectionRestore false rest
    else if !skip then line :: stripSectionRestore skip rest
    else stripSectionRestore skip rest

/-- Lexicographic order on strings by code point (Python string sorted). -/
def lexLe : List Char → List Char → Bool
  | [], _ => true
  | _ :: _, [] => false
  | a :: as, b :: bs => if a < b then true else if b < a then false else lexLe as bs

/-- Python sorted() over a deduplicated string list (sorted(set(..))). -/
def pySortedSet (l : List String) : List String :=
  List.insertionSort (fun a b => lexLe a.data b.data = true) l.eraseDups

/-- Python sep.join(pieces). -/
def joinSep (sep : String) : List String → String
  | [] => ""
  | [x] => x
  | x :: rest => x ++ sep ++ joinSep sep rest

/-- The root-level moved files listed individually by update_cursorignore:
entries with no slash of either kind. -/
def sectionRootFiles (moved : List String) : List String :=
  moved.filter (fun mf =>
    !(containsSub (pyReplaceChar '\\' '/' mf) "/") && !(containsSub mf "\\"))

/-- The parent directories of moved files (paths with more than one
segment), deduplicated and sorted, as update_cursorignore collects them. -/
def sectionMovedDirs (moved : List String) : List String :=
  pySortedSet (moved.filterMap (fun mf =>
    let parts := pySplitChar '/' (pyReplaceChar '\\' '/' mf)
    if 1 < parts.length then some (joinSep "/" parts.dropLast) else none))

/-- The tool-owned section text update_cursorignore appends; residue d gives
the number of files remaining under directory d in the project, none when
the directory no longer exists. -/
def HeavyMover.build_cursorignore_section (moved : List String)
    (externalRel : String) (residue : String → Option Nat) : String :=
  "\n\n# Deep Clean - moved files\n" ++
  "# Files moved to external storage (excluded from Cursor indexing)\n" ++
  "# Generated by: toolkit doctor --deep-clean\n" ++
  "# External storage: " ++ externalRel ++ "\n" ++
  "\n" ++
  String.join ((sectionRootFiles moved).map (fun mf => pyReplaceChar '\\' '/' mf ++ "\n")) ++
  String.join ((sectionMovedDirs moved).map (fun d =>
    match residue d with
    | some n => if n ≤ 2 then d ++ "/*\n" else ""
    | none => "")) ++
  "\n# External storage directory\n" ++ externalRel ++ "/\n"

/-- update_cursorignore: remove any prior tool-owned section (only when the
sentinel occurs), right-strip, and append the freshly built section. -/
def HeavyMover.update_cursorignore (existing : String) (moved : List String)
    (externalRel : String) (residue : String → Option Nat) : String :=
  let existing2 :=
    if containsSub existing deepCleanSentinel then
      pyRStrip (joinNl (stripSectionUpdate false (pySplitLines existing)))
    else existing
  pyRStrip existing2 ++ HeavyMover.build_cursorignore_section moved externalRel residue

/-- The cursorignore rewrite restore_files performs when the sentinel is
present: strip the section, right-strip, and append a final newline. -/
def HeavyMover.restore_strip_cursorignore (content : String) : String :=
  pyRStrip (joinNl (stripSectionRestore false (pySplitLines content))) ++ "\n"

/-- Tool-emitted comment forms, for the specification-side reading of the
ignore-file contract. -/
def specIsToolComment (line : String) : Bool :=
  pyStartsWith (pyStripWs line) "# Deep Clean" ||
  pyStartsWith (pyStripWs line) "# Files moved to external storage" ||
  pyStartsWith (pyStripWs line) "# Generated by:" ||
  pyStartsWith (pyStripWs line) "# External storage"

/-- The user-owned lines of an ignore file under the specification's
contract: the tool-owned block runs from the sentinel line to just before
the next blank line or non-tool comment; every other line is user-owned. -/
def specUserLines : Bool → List String → List String
  | _, [] => []
  | false, l :: r =>
    if containsSub l deepCleanSentinel then specUserLines true r
    else l :: specUserLines false r
  | true, l :: r =>
    if (pyStripWs l == "") || (pyStartsWith (pyStripWs l) "#" && !specIsToolComment l) then
      l :: specUserLines false r
    else specUserLines true r

/-! ## restore_files of heavy_mover.py (claim C2)

The filesystem is an association list from paths to contents; the manifest
file stores its parsed value directly (its JSON text is never inspected
elsewhere), and the (original, external) path strings of each entry are
stored in segment form. -/

/-- One files[] entry of the mover manifest, reduced to the fields
restore_files reads. -/
structure ManifestFileEntry where
  original : PyPath
  external : PyPath
deriving DecidableEq, Repr

/-- The mover manifest, reduced to the fields restore_files reads. -/
structure MoverManifest where
  external_dir : PyPath
  files : List ManifestFileEntry
deriving DecidableEq, Repr

/-- A file's content: plain text, or a parsed manifest value. -/
inductive FileContent where
  | text (s : String)
  | manifestData (m : MoverManifest)
deriving DecidableEq, Repr

/-- A filesystem as an association list. -/
abbrev PyFs := List (PyPath × FileContent)

def fsLookup (fs : PyFs) (p : PyPath) : Option FileContent :=
  (fs.find? (fun e => e.1 == p)).map (fun e => e.2)

def fsErase (fs : PyFs) (p : PyPath) : PyFs :=
  fs.filter (fun e => !(e.1 == p))

def fsSet (fs : PyFs) (p : PyPath) (v : FileContent) : PyFs :=
  fsErase fs p ++ [(p, v)]

/-- heavy_mover.restore_files: find the manifest (new path first, then the
legacy path), move each listed file from external storage back into the
project, delete config_paths.py, and strip the Deep-Clean section from
.cursorignore.  The manifest file itself is never deleted.  Returns the
final filesystem and the number of files restored. -/
def HeavyMover.restore_files (fs0 : PyFs) (parent : PyPath) (name : String) :
    Except PyErr (PyFs × Nat) :=
  let newM := parent ++ [name ++ "_data", "manifest.json"]
  let oldM := parent ++ ["_data", name, "LARGE_TOKENS", "manifest.json"]
  let mpath? :=
    if (fsLookup fs0 newM).isSome then some newM
    else if (fsLookup fs0 oldM).isSome then some oldM
    else none
  match mpath? with
  | none => .error .fileNotFoundError
  | some mpath =>
    match fsLookup fs0 mpath with
    | some (.manifestData m) =>
      let project := parent ++ [name]
      let movedAcc := m.files.foldl (fun (acc : PyFs × Nat) e =>
        let src := m.external_dir ++ e.external
        match fsLookup acc.1 src with
        | some content =>
          (fsSet (fsErase acc.1 src) (project ++ e.original) content, acc.2 + 1)
        | none => acc) (fs0, 0)
      let cfg := project ++ ["config_paths.py"]
      let fs2 :=
        if (fsLookup movedAcc.1 cfg).isSome then fsErase movedAcc.1 cfg else movedAcc.1
      let ci := project ++ [".cursorignore"]
      let fs3 :=
        match fsLookup fs2 ci with
        | some (.text content) =>
          if containsSub content deepCleanSentinel then
            fsSet fs2 ci (.text (HeavyMover.restore_strip_cursorignore content))
          else fs2
        | _ => fs2
      .ok (fs3, movedAcc.2)
    | some (.text _) => .error .valueError
    | none => .error .fileNotFoundError

/-! ## AST patcher (src/optimizer/ast_patcher.py, claim C6)

The parse tree is reduced to the node shapes the transformer inspects:
string constants, other constants, names, and calls whose callee is a name
or an attribute.  A module is the list of its expressions in visit order.
Python's ast.parse is an external library function and is a parameter of
patch_file; re-parsing of the patched text goes through the same
parameter. -/

inductive PyExpr where
  | constStr (value : String) (line : Nat) (col : Nat)
  | constOther
  | nameRef (id : String)
  | callName (id : String) (args : List PyExpr) (line : Nat) (col : Nat)
  | callAttr (base : PyExpr) (attr : String) (args : List PyExpr) (line : Nat) (col : Nat)

/-- One recorded patch location (file field omitted; it is only echoed back). -/
structure PatchLoc where
  line : Nat
  col : Nat
  original : String
  patched : String
  pattern_type : String
deriving DecidableEq, Repr

/-- The dataframe reader method names recognized by the transformer. -/
def AstPatcher.pandas_methods : List String :=
  ["read_csv", "read_json", "read_excel", "read_parquet", "read_pickle"]

/-- _create_get_path_call: the replacement node get_path("normalized"). -/
def AstPatcher.get_path_call (path : String) : PyExpr :=
  .callName "get_path" [.constStr (AstPatcher.normalize_path path) 0 0] 0 0

mutual

/-- PathPatcher.visit_Call and generic_visit: children are transformed
first, then the node is patched when its callee and first argument match a
recognized form; each patching branch also sets the needs_import flag in
the source, so that flag is recorded as "patch list nonempty". -/
def AstPatcher.visitExpr (moved : List String) : PyExpr → PyExpr × List PatchLoc
  | .constStr v l c => (.constStr v l c, [])
  | .constOther => (.constOther, [])
  | .nameRef id => (.nameRef id, [])
  | .callName id args line col =>
    let va := AstPatcher.visitArgs moved args
    if id = "open" then
      match va.1 with
      | .constStr path pl pc :: rest =>
        if AstPatcher.is_moved_file moved path then
          (.callName "open" (AstPatcher.get_path_call path :: rest) line col,
           va.2 ++ [{ line := line, col := col,
                      original := "open(\"" ++ path ++ "\"",
                      patched := "open(get_path(\"" ++ AstPatcher.normalize_path path ++ "\"",
                      pattern_type := "open" }])
        else (.callName id (.constStr path pl pc :: rest) line col, va.2)
      | other => (.callName id other line col, va.2)
    else if id = "Path" then
      match va.1 with
      | .constStr path pl pc :: rest =>
        if AstPatcher.is_moved_file moved path then
          (AstPatcher.get_path_call path,
           va.2 ++ [{ line := line, col := col,
                      original := "Path(\"" ++ path ++ "\")",
                      patched := "get_path(\"" ++ AstPatcher.normalize_path path ++ "\")",
                      pattern_type := "path" }])
        else (.callName id (.constStr path pl pc :: rest) line col, va.2)
      | other => (.callName id other line col, va.2)
    else (.callName id va.1 line col, va.2)
  | .callAttr base attr args line col =>
    let vb := AstPatcher.visitExpr moved base
    let va := AstPatcher.visitArgs moved args
    let ps := vb.2 ++ va.2
    if AstPatcher.pandas_methods.contains attr then
      match va.1 with
      | .constStr path pl pc :: rest =>
        if AstPatcher.is_moved_file moved path then
          (.callAttr vb.1 attr (AstPatcher.get_path_call path :: rest) line col,
           ps ++ [{ line := line, col := col,
                    original := attr ++ "(\"" ++ path ++ "\")",
                    patched := attr ++ "(get_path(\"" ++ AstPatcher.normalize_path path ++ "\"))",
                    pattern_type := "pandas" }])
        else (.callAttr vb.1 attr (.constStr path pl pc :: rest) line col, ps)
      | other => (.callAttr vb.1 attr other line col, ps)
    else if attr = "connect" then
      match va.1 with
      | .constStr path pl pc :: rest =>
        if AstPatcher.is_moved_file moved path then
          (.callAttr vb.1 attr (AstPatcher.get_path_call path :: rest) line col,
           ps ++ [{ line := line, col := col,
                    original := "connect(\"" ++ path ++ "\")",
                    patched := "connect(get_path(\"" ++ AstPatcher.normalize_path path ++ "\"))",
                    pattern_type := "sqlite" }])
        else (.callAttr vb.1 attr (.constStr path pl pc :: rest) line col, ps)
      | other => (.callAttr vb.1 attr other line col, ps)
    else (.callAttr vb.1 attr va.1 line col, ps)

/-- Transform a list of sibling nodes, concatenating their patches. -/
def AstPatcher.visitArgs (moved : List String) : List PyExpr → List PyExpr × List PatchLoc
  | [] => ([], [])
  | e :: rest =>
    let ve := AstPatcher.visitExpr moved e
    let vr := AstPatcher.visitArgs moved rest
    (ve.1 :: vr.1, ve.2 ++ vr.2)

end

/-- Visiting a module is visiting its expressions in order. -/
def AstPatcher.visitModule (moved : List String) (tree : List PyExpr) :
    List PyExpr × List PatchLoc :=
  AstPatcher.visitArgs moved tree

/-- One of the two Python quote characters. -/
def isQuoteChar (c : Char) : Bool := c = '"' || c = Char.ofNat 39

/-- The regex search for a first quoted segment in _patch_line: leftmost
occurrence of quote, one or more non-quote characters, quote. -/
def firstQuotedSeg : List Char → Option String
  | [] => none
  | c :: rest =>
    if isQuoteChar c then
      let run := rest.takeWhile (fun d => !isQuoteChar d)
      let after := rest.dropWhile (fun d => !isQuoteChar d)
      if !run.isEmpty && !after.isEmpty then some (String.mk run)
      else firstQuotedSeg rest
    else firstQuotedSeg rest

/-- Attempt the quote-path-quote pattern at head position c. -/
def matchQuotedAt (c : Char) (rest : List Char) (path : List Char) :
    Option (List Char × List Char) :=
  if isQuoteChar c && path.isPrefixOf rest then
    match rest.drop path.length with
    | d :: tail => if isQuoteChar d then some (c :: (path ++ [d]), tail) else none
    | [] => none
  else none

/-- Leftmost occurrence of quote-path-quote in a line, as the re.sub
pattern of the open/pandas/sqlite branches matches it; returns the split
(before, matched, after). -/
def findQuotedSplit (l : List Char) (path : List Char) :
    Option (List Char × List Char × List Char) :=
  match l with
  | [] => none
  | c :: rest =>
    match matchQuotedAt c rest path with
    | some (m, post) => some ([], m, post)
    | none =>
      match findQuotedSplit rest path with
      | some (pre, m, post) => some (c :: pre, m, post)
      | none => none

/-- Attempt the Path-call pattern of the "path" branch at the head of l:
Path, optional whitespace, parenthesis, optional whitespace, quoted path,
optional whitespace, closing parenthesis. -/
def matchPathCallAt (l : List Char) (path : List Char) :
    Option (List Char × List Char) :=
  match l with
  | 'P' :: 'a' :: 't' :: 'h' :: r0 =>
    let s1 := r0.takeWhile (pyWsChars.contains ·)
    (match r0.dropWhile (pyWsChars.contains ·) with
     | '(' :: r2 =>
       let s2 := r2.takeWhile (pyWsChars.contains ·)
       (match r2.dropWhile (pyWsChars.contains ·) with
        | q1 :: r4 =>
          if isQuoteChar q1 && path.isPrefixOf r4 then
            match r4.drop path.length with
            | q2 :: r6 =>
              if isQuoteChar q2 then
                let s3 := r6.takeWhile (pyWsChars.contains ·)
                (match r6.dropWhile (pyWsChars.contains ·) with
                 | ')' :: post =>
                   some (['P', 'a', 't', 'h'] ++ s1 ++ ['('] ++ s2 ++ [q1] ++ path ++
                     [q2] ++ s3 ++ [')'], post)
                 | _ => none)
              else none
            | [] => none
          else none
        | [] => none)
     | _ => none)
  | _ => none

/-- Leftmost occurrence of the Path-call pattern in a line. -/
def findPathCallSplit (l : List Char) (path : List Char) :
    Option (List Char × List Char × List Char) :=
  match l with
  | [] => none
  | c :: rest =>
    match matchPathCallAt (c :: rest) path with
    | some (m, post) => some ([], m, post)
    | none =>
      match findPathCallSplit rest path with
      | some (pre, m, post) => some (c :: pre, m, post)
      | none => none

/-- _patch_line: re-extract the quoted path from the recorded original
fragment and the normalized key from the recorded patched fragment, then
replace the first regex match on the line; any failure along the way (no
quoted segment, no second split piece, no match) leaves the line unchanged,
as the try/except does. -/
def AstPatcher.patch_line (line : String) (p : PatchLoc) : String :=
  if p.pattern_type = "open" || p.pattern_type = "pandas" || p.pattern_type = "sqlite" then
    match firstQuotedSeg p.original.data with
    | none => line
    | some origPath =>
      match (pySplitChar '"' p.patched)[1]? with
      | none => line
      | some norm =>
        match findQuotedSplit line.data origPath.data with
        | none => line
        | some (pre, _, post) =>
          String.mk (pre ++ ("get_path(\"" ++ norm ++ "\")").data ++ post)
  else if p.pattern_type = "path" then
    match firstQuotedSeg p.original.data with
    | none => line
    | some origPath =>
      match (pySplitChar '"' p.patched)[1]? with
      | none => line
      | some norm =>
        match findPathCallSplit line.data origPath.data with
        | none => line
        | some (pre, _, post) =>
          String.mk (pre ++ ("get_path(\"" ++ norm ++ "\")").data ++ post)
  else line

/-- Sort key of _apply_patches_to_source: (line, col) descending, stable. -/
def patchKeyLe (a b : PatchLoc) : Bool :=
  (b.line < a.line) || (b.line = a.line && b.col ≤ a.col)

/-- _apply_patches_to_source: split into lines, apply the patches bottom-up
(line and column descending) to the addressed lines, join back. -/
def AstPatcher.apply_patches_to_source (source : String) (patches : List PatchLoc) :
    String :=
  let lines := pySplitLines source
  let final := (List.insertionSort (fun a b => patchKeyLe a b = true) patches).foldl
    (fun (ls : List String) p =>
      if p.line = 0 then ls
      else
        let idx := p.line - 1
        if idx < ls.length then ls.set idx (AstPatcher.patch_line (ls.getD idx "") p)
        else ls)
    lines
  joinNl final

/-- The import line add_import_statement inserts. -/
def AstPatcher.import_line : String := "from config_paths import get_path"

/-- The insert-position loop of add_import_statement: skip a module
docstring, advance past the contiguous block of imports, stop at the
first other non-comment non-empty line. -/
def AstPatcher.findInsertIdx : List String → Nat → Nat → Bool → Option String → Nat
  | [], _, insertIdx, _, _ => insertIdx
  | line :: rest, i, insertIdx, inDoc, docChar =>
    let stripped := pyStripWs line
    if i = 0 && (pyStartsWith stripped "\"\"\"" || pyStartsWith stripped "\x27\x27\x27") then
      let dc := String.mk (stripped.data.take 3)
      AstPatcher.findInsertIdx rest (i + 1) insertIdx (!(2 ≤ pyCountSub stripped dc)) (some dc)
    else if inDoc then
      match docChar with
      | some dc =>
        AstPatcher.findInsertIdx rest (i + 1) insertIdx (!containsSub stripped dc) (some dc)
      | none => AstPatcher.findInsertIdx rest (i + 1) insertIdx true none
    else if pyStartsWith stripped "import " || pyStartsWith stripped "from " then
      AstPatcher.findInsertIdx rest (i + 1) (i + 1) inDoc docChar
    else if stripped != "" && !(pyStartsWith stripped "#") then insertIdx
    else AstPatcher.findInsertIdx rest (i + 1) insertIdx inDoc docChar

/-- add_import_statement: no-op when the file already has any
"from config_paths import" line, else insert the get_path import line
after the block of imports. -/
def AstPatcher.add_import_statement (source : String) : String :=
  if containsSub source AstPatcher.import_line ||
      containsSub source "from config_paths import" then source
  else
    let lines := pySplitLines source
    joinNl (pyInsert (AstPatcher.findInsertIdx lines 0 0 false none)
      AstPatcher.import_line lines)

/-- Result record of patch_file; written models the final write_text call
(dry_run false), so written = false means the on-disk file is untouched. -/
structure PatchFileResult where
  success : Bool
  error : Option String
  patched_content : String
  written : Bool
  patches : List PatchLoc
deriving DecidableEq, Repr

/-- patch_file: parse, transform, return early when no patch fired, apply
the text patches, add the import (needs_import holds exactly when the patch
list is nonempty), re-parse, and only then write.  A re-parse failure
records the error and discards the patch without writing. -/
def AstPatcher.patch_file (pyParse : String → Option (List PyExpr))
    (source : String) (moved : List String) : PatchFileResult :=
  match pyParse source with
  | none =>
    { success := false, error := some "Syntax error in original",
      patched_content := "", written := false, patches := [] }
  | some tree =>
    let visited := AstPatcher.visitModule moved tree
    if visited.2.isEmpty then
      { success := true, error := none, patched_content := source,
        written := false, patches := [] }
    else
      let pc := AstPatcher.add_import_statement
        (AstPatcher.apply_patches_to_source source visited.2)
      match pyParse pc with
      | none =>
        { success := false, error := some "Syntax error after patching",
          patched_content := pc, written := false, patches := [] }
      | some _ =>
        { success := true, error := none, patched_content := pc,
          written := true, patches := visited.2 }

/-! ## Concrete inputs for claim C6

c6Source is a two-line file whose call argument is an implicit string
concatenation; ast.parse yields a Constant "data/x.json" for it (one Call
node, callee the name open, at line 2 column 0, argument at column 5), while
the literal never occurs as one quoted string in the text.  The parse
parameter accepts exactly this text (the patched text coincides with it). -/

def c6Source : String :=
  "from config_paths import get_schema\nopen(\"da\" \"ta/x.json\")"

def c6Ast : List PyExpr :=
  [.callName "open" [.constStr "data/x.json" 2 5] 2 0]

def c6Parse : String → Option (List PyExpr) :=
  fun s => if s = c6Source then some c6Ast else none

def c6Result : PatchFileResult :=
  AstPatcher.patch_file c6Parse c6Source ["data/x.json"]

/-! ## Remaining concrete inputs used by counterexamples and witnesses -/

/-- A heavy data file as the scanner walk yields it (4000 bytes → 1000
estimated tokens). -/
def c8File : SrcFile := { relative_path := "data/products.json", size_bytes := 4000 }

/-- A .cursorignore exactly as a Deep-Clean leaves it, with one user rule
at the top. -/
def c2Cursorignore : String :=
  "user-rule\n\n# Deep Clean - moved files\n" ++
  "# Files moved to external storage (excluded from Cursor indexing)\n" ++
  "# Generated by: toolkit doctor --deep-clean\n" ++
  "# External storage: P_data\n\ndata/*\n\n# External storage directory\nP_data/\n"

/-- The filesystem after a Deep-Clean of project home/P that moved
data/x.json: manifest and relocated file under home/P_data, bridge module
and ignore file inside the project. -/
def c2Fs : PyFs :=
  [(["home", "P_data", "manifest.json"],
    .manifestData { external_dir := ["home", "P_data"],
                    files := [{ original := ["data", "x.json"],
                                external := ["data", "x.json"] }] }),
   (["home", "P_data", "data", "x.json"], .text "payload"),
   (["home", "P", "config_paths.py"], .text "bridge module"),
   (["home", "P", ".cursorignore"], .text c2Cursorignore)]

/-- heavy_mover.restore_files run on that state. -/
def c2Restored : Except PyErr (PyFs × Nat) :=
  HeavyMover.restore_files c2Fs ["home"] "P"

/-- An ignore file where the user edited after the tool block: a user
comment mentioning Deep Clean and a user rule follow the block. -/
def c9Initial : String :=
  "keep1\n# Deep Clean - moved files\ndata.json\n# my Deep Clean note\nkeep2"

/-- The update_cursorignore rewrite of that file on the next Deep-Clean. -/
def c9Updated : String :=
  HeavyMover.update_cursorignore c9Initial ["data/x.json"] "P_data" (fun _ => some 0)

/-! # Theorems -/

/-! ## Helper lemmas on the string primitives -/

theorem string_data_append (a b : String) : (a ++ b).data = a.data ++ b.data := rfl

theorem containsSub_iff {s sub : String} :
    containsSub s sub = true ↔ sub.data <:+: s.data := by
  unfold containsSub
  rw [List.any_eq_true]
  constructor
  · rintro ⟨t, ht, hp⟩
    exact List.infix_iff_prefix_suffix.mpr
      ⟨t, List.isPrefixOf_iff_prefix.mp hp, (List.mem_tails _ _).mp ht⟩
  · intro h
    obtain ⟨t, hp, hs⟩ := List.infix_iff_prefix_suffix.mp h
    exact ⟨t, (List.mem_tails _ _).mpr hs, List.isPrefixOf_iff_prefix.mpr hp⟩

theorem containsSub_mono {s a b : String} (h : b.data <+: a.data)
    (ha : containsSub s a = true) : containsSub s b = true :=
  containsSub_iff.mpr (h.isInfix.trans (containsSub_iff.mp ha))

theorem joinNl_infix_of_mem {l : String} {ls : List String} (h : l ∈ ls) :
    l.data <:+: (joinNl ls).data := by
  induction ls with
  | nil => cases h
  | cons x rest ih =>
    cases rest with
    | nil =>
      rw [List.mem_singleton] at h
      subst h
      exact List.infix_refl _
    | cons y t =>
      rcases List.mem_cons.mp h with h | h
      · subst h
        show l.data <:+: (l ++ "\n" ++ joinNl (y :: t)).data
        rw [string_data_append, string_data_append]
        exact ((List.prefix_append l.data _).trans (List.prefix_append _ _)).isInfix
      · obtain ⟨u, v, huv⟩ := ih h
        show l.data <:+: (x ++ "\n" ++ joinNl (y :: t)).data
        refine ⟨(x ++ "\n").data ++ u, v, ?_⟩
        rw [string_data_append, string_data_append, ← huv]
        simp [List.append_assoc]

theorem mem_pyInsert_self (i : Nat) (x : α) (l : List α) : x ∈ pyInsert i x l := by
  simp [pyInsert]

theorem containsSub_joinNl_of_mem {l : String} {ls : List String} (h : l ∈ ls)
    {sub : String} (hp : sub.data <+: l.data) :
    containsSub (joinNl ls) sub = true :=
  containsSub_iff.mpr (hp.isInfix.trans (joinNl_infix_of_mem h))

/-- Any output of add_import_statement contains a "from config_paths import"
line: either the input already did, or the inserted get_path import does. -/
theorem add_import_contains (s : String) :
    containsSub (AstPatcher.add_import_statement s) "from config_paths import" = true := by
  unfold AstPatcher.add_import_statement
  split
  · rename_i h
    rcases Bool.or_eq_true _ _ |>.mp h with h1 | h1
    · exact containsSub_mono (by decide) h1
    · exact h1
  · exact containsSub_joinNl_of_mem (mem_pyInsert_self _ _ _) (by decide)

/-! ## Claim C1 -/

/-- C1: the idempotence claim fails on the code, not because a second run
re-moves files, but because full_optimization cannot complete even one run:
at step 2 it calls get_moveable_files(scan_result,
exclude_paths=already_moved_paths), while token_scanner.get_moveable_files
accepts the single parameter result, so the interpreter raises TypeError
(unexpected keyword argument) on every invocation, first and second alike.
The theorem evaluates the embedded argument binding of that call. -/
theorem C1_full_optimization_moveable_call_typeerror :
    full_optimization_get_moveable_call = Except.error PyErr.typeError := rfl

/-! ## Claim C2 -/

set_option maxRecDepth 8192 in
/-- C2: restore is not the claimed strict inverse.  The doctor-level
restore_files passes dry_run to heavy_mover.restore_files, whose parameters
are (project_path, manifest_path), so the delegation raises TypeError
(first conjunct).  Moreover, heavy_mover.restore_files itself, run on a
concrete post-Deep-Clean state, moves the file back and removes
config_paths.py, but leaves manifest.json in place (it is never deleted)
and leaves tool-added lines such as "# Generated by: .." in .cursorignore
(its section stripper only removes the sentinel line). -/
theorem C2_doctor_restore_typeerror_and_manifest_kept :
    doctor_restore_call = Except.error PyErr.typeError ∧
    (c2Restored.map (fun r =>
      ((fsLookup r.1 (["home", "P_data", "manifest.json"])).isSome,
       fsLookup r.1 (["home", "P", "data", "x.json"]),
       fsLookup r.1 (["home", "P", "config_paths.py"]),
       (match fsLookup r.1 (["home", "P", ".cursorignore"]) with
        | some (.text c) => containsSub c "# Generated by"
        | _ => false),
       r.2))) =
    Except.ok (true, some (.text "payload"), none, true, 1) := ⟨rfl, rfl⟩

/-! ## Claim C3 -/

/-- C3 counterexample: with project home/P and a root-level moved file
big.json, the move destination is home/P_data/big.json — there is no data/
subdirectory between the external root and the project-relative path — and
core/paths.get_external_root derives home/P_fox, not the home/P_data root
the heavy mover uses. -/
theorem C3_external_layout_counterexample :
    HeavyMover.move_destination (HeavyMover.get_external_dir ["home"] "P" false)
      ["big.json"] ≠ ["home", "P_data", "data", "big.json"] ∧
    CorePaths.get_external_root ["home"] "P" ≠
      HeavyMover.get_external_dir ["home"] "P" false := by decide

/-- C3 amended: without a populated legacy directory the heavy mover's
external root is the sibling parent/N_data; each moved file lands at
parent/N_data/(project-relative path) directly (the project structure is
mirrored at the top of the sibling); the recorded external-relative path
recovers exactly the project-relative path; manifest.json sits at the top
level of the sibling; and core/paths derives the different root
parent/N_fox. -/
theorem C3_external_layout_amended (parent : PyPath) (name : String) (rel : PyPath) :
    HeavyMover.get_external_dir parent name false = parent ++ [name ++ "_data"] ∧
    HeavyMover.move_destination (HeavyMover.get_external_dir parent name false) rel =
      parent ++ ([name ++ "_data"] ++ rel) ∧
    pyRelativeTo (HeavyMover.get_external_dir parent name false)
      (HeavyMover.move_destination (HeavyMover.get_external_dir parent name false) rel) =
      some rel ∧
    HeavyMover.manifest_location (HeavyMover.get_external_dir parent name false) =
      parent ++ [name ++ "_data", "manifest.json"] ∧
    CorePaths.get_external_root parent name = parent ++ [name ++ "_fox"] := by
  refine ⟨rfl, by simp [HeavyMover.get_external_dir, HeavyMover.move_destination], ?_,
    by simp [HeavyMover.manifest_location, HeavyMover.get_external_dir], rfl⟩
  unfold pyRelativeTo HeavyMover.move_destination
  rw [if_pos (List.isPrefixOf_iff_prefix.mpr (List.prefix_append _ _)), List.drop_left]

/-! ## Claim C4 -/

/-- C4: the miss behavior of get_path is not one documented build-time
choice.  The two emitters used inside one full_optimization run emit
modules with byte-identical Raises documentation, yet on the same missing
key the heavy_mover-emitted get_path raises FileNotFoundError while the
doctor-emitted get_path returns the input path unchanged — the doctor
module thus also contradicts its own emitted docstring. -/
theorem C4_get_path_miss_divergence :
    HeavyMover.emitted_get_path_doc_raises = Doctor.emitted_get_path_doc_raises ∧
    HeavyMover.emitted_get_path
        [("data/products.json", "home/P_data/data/products.json")] "data/extra.json" =
      Except.error PyErr.fileNotFoundError ∧
    Doctor.emitted_get_path
        [("data/products.json", "home/P_data/data/products.json")] "data/extra.json" =
      Except.ok "data/extra.json" := ⟨rfl, rfl, rfl⟩

/-! ## Claim C5 -/

/-- C5 counterexample: the literal "data/users.json/" is rewritten by the
patcher for moved file "data/users.json" — Python strip("./") removes the
trailing slash, so the code-side normalizations agree — yet under the
specification's normalization (fold backslashes, strip one leading ./ and
nothing else) the literal neither equals nor ends with the moved path. -/
theorem C5_matching_counterexample :
    AstPatcher.is_moved_file ["data/users.json"] "data/users.json/" = true ∧
    AstPatcher.specMatchRule "data/users.json/" "data/users.json" = false := by decide

/-- C5 amended: the patcher rewrites L for moved set S iff some M in S has
normalize(L) = normalize(M) or normalize(L) ending with the raw M, where
normalize folds backslashes and then strips every leading and trailing dot
or slash character (Python strip("./") semantics); the suffix test uses the
un-normalized moved path. -/
theorem C5_matching_amended (moved : List String) (L : String) :
    AstPatcher.is_moved_file moved L = true ↔
      ∃ M ∈ moved, AstPatcher.normalize_path L = AstPatcher.normalize_path M ∨
        pyEndsWith (AstPatcher.normalize_path L) M = true := by
  unfold AstPatcher.is_moved_file
  rw [List.any_eq_true]
  constructor
  · rintro ⟨M, hM, h⟩
    rcases Bool.or_eq_true _ _ |>.mp h with h1 | h1
    · exact ⟨M, hM, Or.inl (by simpa using h1)⟩
    · exact ⟨M, hM, Or.inr h1⟩
  · rintro ⟨M, hM, h | h⟩
    · exact ⟨M, hM, by simp [h]⟩
    · exact ⟨M, hM, by simp [h]⟩

/-! ## Claim C7 -/

/-- C7 counterexample: the sampled column ["abc", "5"] contains the
non-empty value "abc" that parses as neither integer nor float, so the
claim infers str; the code passes over the unparseable value, reaches "5",
and infers int. -/
theorem C7_infer_counterexample :
    SchemaExtractor.infer_csv_type ["abc", "5"] = "int" ∧
    pyIntParsable "abc" = false ∧ pyFloatParsable "abc" = false := by decide

/-- The str outcome characterized: no non-empty sampled value parses. -/
theorem infer_csv_type_eq_str_iff (values : List String) :
    SchemaExtractor.infer_csv_type values = "str" ↔
      ∀ v ∈ values, v ≠ "" → pyIntParsable v = false ∧ pyFloatParsable v = false := by
  induction values with
  | nil => simp [SchemaExtractor.infer_csv_type]
  | cons v rest ih =>
    unfold SchemaExtractor.infer_csv_type
    rcases eq_or_ne v "" with hv | hv
    · subst hv
      simp [ih, List.forall_mem_cons]
    · cases hi : pyIntParsable v with
      | true => simp [hv, hi, List.forall_mem_cons]
      | false =>
        cases hf : pyFloatParsable v with
        | true => simp [hv, hi, hf, List.forall_mem_cons]
        | false => simp [hv, hi, hf, List.forall_mem_cons, ih]

/-- C7 amended: per value the integer parse is tried before the float
parse, and the column type is that of the first non-empty value accepted by
one of them; str results exactly when no non-empty sampled value parses as
integer or float; empty cells are skipped and never change the inference. -/
theorem C7_infer_amended (values : List String) :
    (SchemaExtractor.infer_csv_type values = "str" ↔
      ∀ v ∈ values, v ≠ "" → pyIntParsable v = false ∧ pyFloatParsable v = false) ∧
    (∀ rest, SchemaExtractor.infer_csv_type ("" :: rest) =
      SchemaExtractor.infer_csv_type rest) ∧
    (∀ v rest, v ≠ "" → pyIntParsable v = true →
      SchemaExtractor.infer_csv_type (v :: rest) = "int") ∧
    (∀ v rest, v ≠ "" → pyIntParsable v = false → pyFloatParsable v = true →
      SchemaExtractor.infer_csv_type (v :: rest) = "float") := by
  refine ⟨infer_csv_type_eq_str_iff values, ?_, ?_, ?_⟩
  · intro rest
    simp [SchemaExtractor.infer_csv_type]
  · intro v rest hv hi
    simp [SchemaExtractor.infer_csv_type, hv, hi]
  · intro v rest hv hi hf
    simp [SchemaExtractor.infer_csv_type, hv, hi, hf]

/-- C7 witness: the amended theorem applied at the concrete column ["5"]. -/
theorem C7_infer_witness :
    (("5" : String) ≠ "" ∧ pyIntParsable "5" = true) ∧
    SchemaExtractor.infer_csv_type ["5"] = "int" :=
  ⟨⟨by decide, by decide⟩, (C7_infer_amended ["5"]).2.2.1 "5" [] (by decide) (by decide)⟩

/-! ## Claim C10 -/

/-- C10: when the manifest file does not exist, core/paths.load_manifest
returns the fresh default manifest with version "4.0.0" and an empty files
list, for every JSON parser and filesystem — a merely-absent manifest never
raises at this interface. -/
theorem C10_load_manifest_default (jsonLoads : String → Except PyErr CoreManifest)
    (fs : PyPath → Option String) (parent : PyPath) (name : String)
    (h : fs (CorePaths.get_manifest_path parent name) = none) :
    CorePaths.load_manifest jsonLoads fs parent name =
      Except.ok CorePaths.default_manifest := by
  unfold CorePaths.load_manifest
  rw [h]

/-- C10 witness: the theorem applied to the empty filesystem and a JSON
parser that always fails, at project home/P. -/
theorem C10_load_manifest_witness :
    ((fun _ : PyPath => (none : Option String))
      (CorePaths.get_manifest_path ["home"] "P") = none) ∧
    CorePaths.load_manifest (fun _ => Except.error PyErr.valueError)
      (fun _ => none) ["home"] "P" = Except.ok CorePaths.default_manifest :=
  ⟨rfl, C10_load_manifest_default _ _ _ _ rfl⟩

/-! ## Claim C8 -/

/-- C8: the claim of the scanner heavy-file predicate.  (a) scan_file emits
a HeavyFile iff the estimated tokens meet the threshold, the category is
not binary, and include_code or the category is not code; (b) the heavy
list of scan_project holds exactly the scan_file emissions of the walked
non-binary-extension files; (c) it is sorted by estimated tokens
descending. -/
theorem C8_scanner_predicate (files : List SrcFile) (threshold : Nat)
    (include_code : Bool) :
    (∀ f ∈ files, ((TokenScanner.scan_file f threshold include_code).isSome = true ↔
      (threshold ≤ TokenScanner.estimate_tokens f ∧
       TokenScanner.categorize_file f ≠ TokenScanner.FileCategory.binary ∧
       (include_code = true ∨
        TokenScanner.categorize_file f ≠ TokenScanner.FileCategory.code)))) ∧
    (∀ h, h ∈ (TokenScanner.scan_project files threshold include_code).heavy_files ↔
      ∃ f ∈ files,
        (!(TokenScanner.BINARY_EXTENSIONS.contains
            (pyLower (pathSuffix (pathFileName f.relative_path))))) = true ∧
        TokenScanner.scan_file f threshold include_code = some h) ∧
    (TokenScanner.scan_project files threshold include_code).heavy_files.Pairwise
      (fun a b => b.estimated_tokens ≤ a.estimated_tokens) := by
  refine ⟨?_, ?_, ?_⟩
  · intro f _
    unfold TokenScanner.scan_file
    dsimp only
    split_ifs with h1 h2 h3
    · simp only [Option.isSome_none, Bool.false_eq_true, false_iff]
      rintro ⟨h2, -, -⟩
      omega
    · simp only [Option.isSome_none, Bool.false_eq_true, false_iff]
      simp only [Bool.and_eq_true, decide_eq_true_eq, Bool.not_eq_eq_eq_not,
        Bool.not_true] at h2
      rintro ⟨-, -, h4 | h4⟩
      · rw [h2.2] at h4
        cases h4
      · exact h4 h2.1
    · simp only [Option.isSome_none, Bool.false_eq_true, false_iff]
      rintro ⟨-, h4, -⟩
      exact h4 h3
    · simp only [Option.isSome_some, true_iff]
      refine ⟨by omega, h3, ?_⟩
      simp only [Bool.and_eq_true, decide_eq_true_eq, Bool.not_eq_eq_eq_not,
        Bool.not_true, not_and] at h2
      by_cases hic : include_code = true
      · exact Or.inl hic
      · have hfalse : include_code = false := by
          cases include_code
          · rfl
          · exact absurd rfl hic
        exact Or.inr (fun hc => h2 hc hfalse)
  · intro h
    unfold TokenScanner.scan_project
    simp only
    rw [(List.perm_insertionSort _ _).mem_iff, List.mem_filterMap]
    constructor
    · rintro ⟨f, hf, hsf⟩
      rw [List.mem_filter] at hf
      exact ⟨f, hf.1, hf.2, hsf⟩
    · rintro ⟨f, hf, hbin, hsf⟩
      exact ⟨f, List.mem_filter.mpr ⟨hf, hbin⟩, hsf⟩
  · unfold TokenScanner.scan_project
    simp only
    exact List.sorted_insertionSort TokenScanner.tokensDesc _

/-- C8 witness: the predicate applied to a 4000-byte data/products.json at
threshold 1000 with include_code false. -/
theorem C8_scanner_witness :
    (c8File ∈ [c8File]) ∧
    ((TokenScanner.scan_file c8File 1000 false).isSome = true ↔
      (1000 ≤ TokenScanner.estimate_tokens c8File ∧
       TokenScanner.categorize_file c8File ≠ TokenScanner.FileCategory.binary ∧
       (false = true ∨
        TokenScanner.categorize_file c8File ≠ TokenScanner.FileCategory.code))) :=
  ⟨by decide, (C8_scanner_predicate [c8File] 1000 false).1 c8File (by decide)⟩

/-! ## Claim C9 -/

set_option maxRecDepth 8192 in
/-- C9 counterexample: in the ignore file c9Initial, the tool-owned block
per the specification runs from the sentinel to just before the user
comment "# my Deep Clean note" (a non-tool comment), so that comment and
the following rule keep2 are user-owned; a Deep-Clean update drops keep2
(and the comment), because its removal loop keeps skipping over any
comment containing "Deep Clean" and discards the non-comment lines that
follow. -/
theorem C9_ignore_counterexample :
    ("keep2" ∈ specUserLines false (pySplitLines c9Initial)) ∧
    ¬ ("keep2" ∈ pySplitLines c9Updated) := by decide

/-- C9 amended: when the sentinel does not occur in the ignore file, a
Deep-Clean update preserves the whole existing content verbatim (up to
trailing whitespace) as a prefix and appends the tool-owned section after
it; once the sentinel is present, user lines that follow the tool-owned
block may be dropped by the next update, as the counterexample shows. -/
theorem C9_ignore_amended (existing : String) (moved : List String)
    (externalRel : String) (residue : String → Option Nat)
    (h : containsSub existing deepCleanSentinel = false) :
    HeavyMover.update_cursorignore existing moved externalRel residue =
      pyRStrip existing ++
        HeavyMover.build_cursorignore_section moved externalRel residue := by
  unfold HeavyMover.update_cursorignore
  rw [h]
  simp

/-- C9 witness: the amended theorem applied to a sentinel-free user file. -/
theorem C9_ignore_witness :
    (containsSub "venv/\nnode_modules/" deepCleanSentinel = false) ∧
    HeavyMover.update_cursorignore "venv/\nnode_modules/" ["data/x.json"] "P_data"
        (fun _ => some 0) =
      pyRStrip "venv/\nnode_modules/" ++
        HeavyMover.build_cursorignore_section ["data/x.json"] "P_data"
          (fun _ => some 0) :=
  ⟨by decide, C9_ignore_amended _ _ _ _ (by decide)⟩

/-! ## Claim C6 -/

theorem matchQuotedAt_spec {c : Char} {rest path mid post : List Char}
    (h : matchQuotedAt c rest path = some (mid, post)) :
    c :: rest = mid ++ post := by
  unfold matchQuotedAt at h
  split at h
  · rename_i hcond
    split at h
    · rename_i d tail hdrop
      split at h
      · simp only [Option.some.injEq, Prod.mk.injEq] at h
        obtain ⟨h1, h2⟩ := h
        subst h1
        subst h2
        have hpre : path <+: rest :=
          List.isPrefixOf_iff_prefix.mp ((Bool.and_eq_true _ _).mp hcond).2
        obtain ⟨t, ht⟩ := hpre
        have hdt : rest.drop path.length = t := by
          rw [← ht, List.drop_left]
        rw [hdt] at hdrop
        subst hdrop
        rw [← ht]
        simp
      · exact absurd h (by simp)
    · exact absurd h (by simp)
  · exact absurd h (by simp)

theorem findQuotedSplit_spec {path : List Char} :
    ∀ {l pre mid post : List Char},
      findQuotedSplit l path = some (pre, mid, post) → l = pre ++ mid ++ post := by
  intro l
  induction l with
  | nil => intro pre mid post h; simp [findQuotedSplit] at h
  | cons c rest ih =>
    intro pre mid post h
    rw [findQuotedSplit] at h
    split at h
    · rename_i m post' hm
      simp only [Option.some.injEq, Prod.mk.injEq] at h
      obtain ⟨h1, h2, h3⟩ := h
      subst h1
      subst h2
      subst h3
      simpa using matchQuotedAt_spec hm
    · split at h
      · rename_i pre' m' post' hrec
        simp only [Option.some.injEq, Prod.mk.injEq] at h
        obtain ⟨h1, h2, h3⟩ := h
        subst h1
        subst h2
        subst h3
        rw [ih hrec]
        simp
      · exact absurd h (by simp)

theorem matchPathCallAt_spec {l path mid post : List Char}
    (h : matchPathCallAt l path = some (mid, post)) :
    l = mid ++ post := by
  unfold matchPathCallAt at h
  split at h
  · rename_i r0
    split at h
    · rename_i r2 hw1
      split at h
      · rename_i q1 r4 hw2
        split at h
        · rename_i hcond
          split at h
          · rename_i q2 r6 hdrop
            split at h
            · rename_i hq2
              split at h
              · rename_i post2 hw3
                simp only [Option.some.injEq, Prod.mk.injEq] at h
                obtain ⟨h1, h2⟩ := h
                rw [← h1, ← h2]
                obtain ⟨t, ht⟩ :=
                  List.isPrefixOf_iff_prefix.mp ((Bool.and_eq_true _ _).mp hcond).2
                have hdt : r4.drop path.length = t := by
                  rw [← ht, List.drop_left]
                rw [hdt] at hdrop
                subst hdrop
                conv_lhs =>
                  rw [show r0 = r0.takeWhile (pyWsChars.contains ·) ++
                      List.dropWhile (pyWsChars.contains ·) r0 from
                    (List.takeWhile_append_dropWhile _ _).symm]
                  rw [hw1]
                conv_lhs =>
                  rw [show r2 = r2.takeWhile (pyWsChars.contains ·) ++
                      List.dropWhile (pyWsChars.contains ·) r2 from
                    (List.takeWhile_append_dropWhile _ _).symm]
                  rw [hw2]
                conv_lhs => rw [← ht]
                conv_lhs =>
                  rw [show r6 = r6.takeWhile (pyWsChars.contains ·) ++
                      List.dropWhile (pyWsChars.contains ·) r6 from
                    (List.takeWhile_append_dropWhile _ _).symm]
                  rw [hw3]
                simp
              · exact absurd h (by simp)
            · exact absurd h (by simp)
          · exact absurd h (by simp)
        · exact absurd h (by simp)
      · exact absurd h (by simp)
    · exact absurd h (by simp)
  · exact absurd h (by simp)

theorem findPathCallSplit_spec {path : List Char} :
    ∀ {l pre mid post : List Char},
      findPathCallSplit l path = some (pre, mid, post) → l = pre ++ mid ++ post := by
  intro l
  induction l with
  | nil => intro pre mid post h; simp [findPathCallSplit] at h
  | cons c rest ih =>
    intro pre mid post h
    rw [findPathCallSplit] at h
    split at h
    · rename_i m post' hm
      simp only [Option.some.injEq, Prod.mk.injEq] at h
      obtain ⟨h1, h2, h3⟩ := h
      subst h1
      subst h2
      subst h3
      simpa using matchPathCallAt_spec hm
    · split at h
      · rename_i pre' m' post' hrec
        simp only [Option.some.injEq, Prod.mk.injEq] at h
        obtain ⟨h1, h2, h3⟩ := h
        subst h1
        subst h2
        subst h3
        rw [ih hrec]
        simp
      · exact absurd h (by simp)

/-- C6 counterexample: on c6Source with moved file data/x.json the patcher
records one patch and writes the file, yet the written text is byte-equal
to the original: the substitution replaced zero literals (the literal is an
implicit concatenation, so its text never occurs as one quoted string on
the line), and no get_path import was added because the pre-existing
get_schema one suppresses it — the written file contains no get_path. -/
theorem C6_patch_counterexample :
    c6Result.written = true ∧
    c6Result.patches.length = 1 ∧
    c6Result.patched_content = c6Source ∧
    containsSub c6Result.patched_content "get_path" = false := by decide

/-- C6 amended: if the patched text fails to re-parse, the patch is
discarded without writing and an error is recorded (error implies not
written, and written implies the re-parse succeeded); every file actually
written contains a "from config_paths import" line — though not
necessarily one importing get_path, since any existing import from
config_paths suppresses the insertion; and each substitution rewrites at
most one matched fragment of its line — possibly none, when the recorded
literal does not occur as one quoted string there. -/
theorem C6_safe_patching (pyParse : String → Option (List PyExpr))
    (source : String) (moved : List String) :
    ((AstPatcher.patch_file pyParse source moved).error.isSome = true →
      (AstPatcher.patch_file pyParse source moved).written = false) ∧
    ((AstPatcher.patch_file pyParse source moved).written = true →
      (pyParse (AstPatcher.patch_file pyParse source moved).patched_content).isSome = true ∧
      containsSub (AstPatcher.patch_file pyParse source moved).patched_content
        "from config_paths import" = true) ∧
    (∀ (line : String) (p : PatchLoc), AstPatcher.patch_line line p = line ∨
      ∃ pre mid post norm, line.data = pre ++ mid ++ post ∧
        (AstPatcher.patch_line line p).data =
          pre ++ ("get_path(\"" ++ norm ++ "\")").data ++ post) := by
  refine ⟨?_, ?_, ?_⟩
  · unfold AstPatcher.patch_file
    rcases h1 : pyParse source with _ | tree
    · simp
    · dsimp only
      split_ifs with he
      · simp
      · rcases h3 : pyParse (AstPatcher.add_import_statement
            (AstPatcher.apply_patches_to_source source
              (AstPatcher.visitModule moved tree).2)) with _ | m
        · simp
        · simp
  · unfold AstPatcher.patch_file
    rcases h1 : pyParse source with _ | tree
    · simp
    · dsimp only
      split_ifs with he
      · simp
      · rcases h3 : pyParse (AstPatcher.add_import_statement
            (AstPatcher.apply_patches_to_source source
              (AstPatcher.visitModule moved tree).2)) with _ | m
        · simp
        · intro _
          refine ⟨by simp [h3], add_import_contains _⟩
  · intro line p
    unfold AstPatcher.patch_line
    split_ifs with h1 h2
    · rcases hfq : firstQuotedSeg p.original.data with _ | origPath
      · left
        simp [hfq]
      · rcases hnorm : (pySplitChar '"' p.patched)[1]? with _ | norm
        · left
          simp [hfq, hnorm]
        · rcases hfind : findQuotedSplit line.data origPath.data with _ | ⟨pre, mid, post⟩
          · left
            simp [hfq, hnorm, hfind]
          · right
            exact ⟨pre, mid, post, norm, findQuotedSplit_spec hfind,
              by simp [hfq, hnorm, hfind]⟩
    · rcases hfq : firstQuotedSeg p.original.data with _ | origPath
      · left
        simp [hfq]
      · rcases hnorm : (pySplitChar '"' p.patched)[1]? with _ | norm
        · left
          simp [hfq, hnorm]
        · rcases hfind : findPathCallSplit line.data origPath.data with _ | ⟨pre, mid, post⟩
          · left
            simp [hfq, hnorm, hfind]
          · right
            exact ⟨pre, mid, post, norm, findPathCallSplit_spec hfind,
              by simp [hfq, hnorm, hfind]⟩
    · left
      rfl

/-- C6 witness: the amended theorem applied at the c6 inputs, where the
file is written: the written text re-parses and contains an import from
config_paths. -/
theorem C6_safe_patching_witness :
    c6Result.written = true ∧
    ((c6Parse c6Result.patched_content).isSome = true ∧
     containsSub c6Result.patched_content "from config_paths import" = true) :=
  ⟨by decide, (C6_safe_patching c6Parse c6Source ["data/x.json"]).2.1 (by decide)⟩
